import Mathlib

/-!
Shallow embedding of the deduplication and freshness-filtering core of
post_to_telegram.py (NamibiaTelegram repository), together with theorems
settling the frozen claims about its specification.

Conventions of the embedding:
* Python strings are Lean String; the inputs relevant to the claims are
  ASCII, and the ASCII-only Char.toLower / Char.isAlphanum stand in for
  the Python str.lower and the regex classes on that fragment.
* Machine-level hashing (hashlib.md5) is embedded as a full MD5
  implementation over Nat with explicit reduction modulo 2 ^ 32.
* Timestamps compared arithmetically (datetime values) are embedded as
  Int seconds; ISO-8601 timestamp strings kept in the store are embedded
  as String, ordered lexicographically exactly as Python compares them
  in save_posted_links.
* The persisted state file is embedded as a small JSON value type; file
  system outcomes (missing file, IOError, JSONDecodeError) are explicit
  constructors of FileState.
-/

/-! ### Configuration constants (post_to_telegram.py lines 29-35) -/

/-- MAX_ARTICLE_AGE_HOURS = 48 (line 33). -/
def MAX_ARTICLE_AGE_HOURS : Int := 48

/-- MIN_CONTENT_LENGTH = 100 (line 35). -/
def MIN_CONTENT_LENGTH : Nat := 100

/-! ### Text normalization (generate_content_hash, lines 73-78)

The Python code is
  normalized = re.sub(r'[^\w\s]', '', (title + " " + summary).lower())
  normalized = re.sub(r'\s+', ' ', normalized).strip()
  return hashlib.md5(normalized.encode()).hexdigest()
-/

/-- Characters matched by the regex class \s (ASCII fragment). -/
def isSpaceChar (c : Char) : Bool :=
  c == ' ' || c == '\t' || c == '\n' || c == '\r' || c == '\x0b' || c == '\x0c'

/-- Characters matched by the regex class \w (ASCII fragment):
alphanumerics and the underscore. -/
def isWordChar (c : Char) : Bool :=
  c.isAlphanum || c == '_'

/-- Python str.lower on the ASCII fragment. -/
def pythonLower (s : String) : String :=
  String.mk (s.data.map Char.toLower)

/-- Keep only the characters satisfying keep (models re.sub(class, '', s)). -/
def filterChars (keep : Char → Bool) (s : String) : String :=
  String.mk (s.data.filter keep)

/-- re.sub(r'[^\w\s]', '', s): drop every character that is neither a word
character nor whitespace. -/
def stripNonWord (s : String) : String :=
  filterChars (fun c => isWordChar c || isSpaceChar c) s

/-- Single pass replacing each maximal run of whitespace with one space;
the flag records whether the previous character was part of a run. -/
def collapseWsAux : Bool → List Char → List Char
  | _, [] => []
  | prev, c :: cs =>
    if isSpaceChar c then
      if prev then collapseWsAux true cs else ' ' :: collapseWsAux true cs
    else c :: collapseWsAux false cs

/-- re.sub(r'\s+', ' ', s). -/
def collapseWs (s : String) : String :=
  String.mk (collapseWsAux false s.data)

/-- Python str.strip(): drop leading and trailing whitespace. -/
def pyStrip (s : String) : String :=
  String.mk (((s.data.dropWhile isSpaceChar).reverse.dropWhile isSpaceChar).reverse)

/-- The normalization pipeline of generate_content_hash (lines 76-77):
concatenate with one space, lowercase, strip characters outside \w and \s,
collapse whitespace runs, trim. -/
def normalizeContent (title summary : String) : String :=
  pyStrip (collapseWs (stripNonWord (pythonLower (title ++ " " ++ summary))))

/-- Normalization following the WORDS of the spec (section 4.1), for the
refinement comparison: "strip all characters that are not alphanumeric or
whitespace". It differs from the code (stripNonWord) exactly on the
underscore, which the regex class \w retains. -/
def specNormalize (title summary : String) : String :=
  pyStrip (collapseWs (filterChars (fun c => c.isAlphanum || isSpaceChar c)
    (pythonLower (title ++ " " ++ summary))))

/-! ### MD5 (hashlib.md5(...).hexdigest()), RFC 1321, over Nat mod 2 ^ 32 -/

/-- UTF-8 encoding of one character as a list of byte values. -/
def utf8EncodeChar (c : Char) : List Nat :=
  let n := c.toNat
  if n < 128 then [n]
  else if n < 2048 then [192 + n / 64, 128 + n % 64]
  else if n < 65536 then [224 + n / 4096, 128 + (n / 64) % 64, 128 + n % 64]
  else [240 + n / 262144, 128 + (n / 4096) % 64, 128 + (n / 64) % 64, 128 + n % 64]

/-- str.encode(): UTF-8 bytes of a string. -/
def utf8Bytes (s : String) : List Nat :=
  (s.data.map utf8EncodeChar).flatten

/-- Left rotation of a 32-bit word. -/
def rotl32 (x n : Nat) : Nat :=
  ((x <<< n) ||| (x >>> (32 - n))) % 4294967296

/-- MD5 sine-derived constant table T[1..64]. -/
def md5K : List Nat :=
  [0xd76aa478, 0xe8c7b756, 0x242070db, 0xc1bdceee,
   0xf57c0faf, 0x4787c62a, 0xa8304613, 0xfd469501,
   0x698098d8, 0x8b44f7af, 0xffff5bb1, 0x895cd7be,
   0x6b901122, 0xfd987193, 0xa679438e, 0x49b40821,
   0xf61e2562, 0xc040b340, 0x265e5a51, 0xe9b6c7aa,
   0xd62f105d, 0x02441453, 0xd8a1e681, 0xe7d3fbc8,
   0x21e1cde6, 0xc33707d6, 0xf4d50d87, 0x455a14ed,
   0xa9e3e905, 0xfcefa3f8, 0x676f02d9, 0x8d2a4c8a,
   0xfffa3942, 0x8771f681, 0x6d9d6122, 0xfde5380c,
   0xa4beea44, 0x4bdecfa9, 0xf6bb4b60, 0xbebfbc70,
   0x289b7ec6, 0xeaa127fa, 0xd4ef3085, 0x04881d05,
   0xd9d4d039, 0xe6db99e5, 0x1fa27cf8, 0xc4ac5665,
   0xf4292244, 0x432aff97, 0xab9423a7, 0xfc93a039,
   0x655b59c3, 0x8f0ccc92, 0xffeff47d, 0x85845dd1,
   0x6fa87e4f, 0xfe2ce6e0, 0xa3014314, 0x4e0811a1,
   0xf7537e82, 0xbd3af235, 0x2ad7d2bb, 0xeb86d391]

/-- MD5 per-round shift amounts. -/
def md5S : List Nat :=
  [7, 12, 17, 22, 7, 12, 17, 22, 7, 12, 17, 22, 7, 12, 17, 22,
   5, 9, 14, 20, 5, 9, 14, 20, 5, 9, 14, 20, 5, 9, 14, 20,
   4, 11, 16, 23, 4, 11, 16, 23, 4, 11, 16, 23, 4, 11, 16, 23,
   6, 10, 15, 21, 6, 10, 15, 21, 6, 10, 15, 21, 6, 10, 15, 21]

/-- MD5 round functions F, G, H, I selected by the step index. -/
def md5F (i b c d : Nat) : Nat :=
  if i < 16 then (b &&& c) ||| ((4294967295 - b) &&& d)
  else if i < 32 then (d &&& b) ||| ((4294967295 - d) &&& c)
  else if i < 48 then b ^^^ c ^^^ d
  else c ^^^ (b ||| (4294967295 - d))

/-- MD5 message-word index for the step index. -/
def md5G (i : Nat) : Nat :=
  if i < 16 then i
  else if i < 32 then (5 * i + 1) % 16
  else if i < 48 then (3 * i + 5) % 16
  else (7 * i) % 16

/-- Assemble little-endian 32-bit words from a byte list. -/
def bytesToWords : List Nat → List Nat
  | b0 :: b1 :: b2 :: b3 :: rest =>
    (b0 + 256 * b1 + 65536 * b2 + 16777216 * b3) :: bytesToWords rest
  | _ => []

/-- MD5 padding: a 0x80 byte, zeros to 56 mod 64, then the bit length as
eight little-endian bytes. -/
def md5Pad (msg : List Nat) : List Nat :=
  let len := msg.length
  let zeros := (120 - (len % 64 + 1)) % 64
  msg ++ [128] ++ List.replicate zeros 0 ++
    (List.range 8).map (fun i => ((len * 8) >>> (8 * i)) % 256)

/-- Split a byte list into 64-byte chunks; the fuel argument (instantiated
with the list length) only serves termination. -/
def splitChunks64 : Nat → List Nat → List (List Nat)
  | 0, _ => []
  | _, [] => []
  | f + 1, l => l.take 64 :: splitChunks64 f (l.drop 64)

/-- One MD5 step on the state (a, b, c, d). -/
def md5Step (M : List Nat) (i : Nat) : Nat × Nat × Nat × Nat → Nat × Nat × Nat × Nat
  | (a, b, c, d) =>
    let f := (md5F i b c d + a + md5K.getD i 0 + M.getD (md5G i) 0) % 4294967296
    (d, (b + rotl32 f (md5S.getD i 0)) % 4294967296, b, c)

/-- Process one 64-byte chunk. -/
def md5ProcessChunk (st : Nat × Nat × Nat × Nat) (chunk : List Nat) :
    Nat × Nat × Nat × Nat :=
  let M := bytesToWords chunk
  match st, (List.range 64).foldl (fun acc i => md5Step M i acc) st with
  | (a0, b0, c0, d0), (a, b, c, d) =>
    ((a0 + a) % 4294967296, (b0 + b) % 4294967296,
     (c0 + c) % 4294967296, (d0 + d) % 4294967296)

/-- MD5 digest of a byte list as the four 32-bit state words. -/
def md5Digest (msg : List Nat) : Nat × Nat × Nat × Nat :=
  let padded := md5Pad msg
  (splitChunks64 padded.length padded).foldl md5ProcessChunk
    (1732584193, 4023233417, 2562383102, 271733878)

/-- Lowercase hex digit for a value below 16. -/
def hexDigit (n : Nat) : Char :=
  if n < 10 then Char.ofNat (48 + n) else Char.ofNat (87 + n)

/-- Two hex digits of one byte. -/
def byteHex (b : Nat) : List Char :=
  [hexDigit (b / 16 % 16), hexDigit (b % 16)]

/-- Hex rendering of one 32-bit word, little-endian byte order. -/
def wordLEHex (w : Nat) : List Char :=
  byteHex (w % 256) ++ byteHex ((w >>> 8) % 256) ++
    byteHex ((w >>> 16) % 256) ++ byteHex ((w >>> 24) % 256)

/-- hashlib.md5(s.encode()).hexdigest(). -/
def md5Hex (s : String) : String :=
  match md5Digest (utf8Bytes s) with
  | (a, b, c, d) =>
    String.mk (wordLEHex a ++ wordLEHex b ++ wordLEHex c ++ wordLEHex d)

/-- generate_content_hash (lines 73-78): MD5 hex digest of the normalized
concatenation of title and summary. -/
def generate_content_hash (title summary : String) : String :=
  md5Hex (normalizeContent title summary)

/-! ### Dedup store (the persisted dict of posted_links.json)

A Python dict is insertion-ordered; it is embedded as an association list
with unique keys. A stored record, once in the current shape, is
{"timestamp": iso-string, "hash": md5-hex-string-or-None}.
-/

/-- One value of the posted_links mapping in the current shape. -/
structure PostedRecord where
  timestamp : String
  hash : Option String
deriving DecidableEq, Repr

/-- The in-memory posted_links dict: URL to record, insertion-ordered. -/
abbrev Store := List (String × PostedRecord)

/-- The membership test `link in posted_links` (line 742). -/
def containsUrl (store : Store) (url : String) : Bool :=
  store.any (fun p => p.1 == url)

/-- is_duplicate_content (lines 80-89): the loop body tests
`if stored_hash and stored_hash == content_hash`, so a record whose hash
is None, or the empty string (both falsy), never matches. -/
def is_duplicate_content (title summary : String) (posted_links : Store) : Bool :=
  let content_hash := generate_content_hash title summary
  posted_links.any (fun p =>
    match p.2.hash with
    | some stored => (stored != "") && (stored == content_hash)
    | none => false)

/-- Python dict assignment d[k] = v: overwrite in place if the key exists,
otherwise append at the end. -/
def dictInsert (store : Store) (url : String) (r : PostedRecord) : Store :=
  if containsUrl store url then
    store.map (fun p => if p.1 == url then (url, r) else p)
  else store ++ [(url, r)]

/-- Ordering used by save_posted_links (lines 62-66):
sorted(links_dict.items(), key=lambda x: x[1].get('timestamp',''),
reverse=True). Python sorted with reverse=True is a stable descending
sort, so a comes before b exactly when the key of b is at most the key of
a, earlier elements winning ties. -/
def tsGe (a b : String × PostedRecord) : Prop :=
  b.2.timestamp ≤ a.2.timestamp

instance : DecidableRel tsGe := fun a b =>
  inferInstanceAs (Decidable (b.2.timestamp ≤ a.2.timestamp))

instance : IsTotal (String × PostedRecord) tsGe :=
  ⟨fun a b => (le_total b.2.timestamp a.2.timestamp).elim Or.inl Or.inr⟩

instance : IsTrans (String × PostedRecord) tsGe :=
  ⟨fun _ _ _ hab hbc => le_trans hbc hab⟩

/-- Stable descending sort by timestamp string, the model of
sorted(..., key=lambda x: x[1].get('timestamp',''), reverse=True). -/
def sortByTsDesc (store : Store) : Store :=
  List.insertionSort tsGe store

/-- save_posted_links (lines 57-71), state change only: when the dict has
more than 2000 entries, sort by timestamp descending and keep the first
2000 (dict(...) on unique keys preserves the list); otherwise keep the
dict as is. The returned store is what json.dump writes to the file. -/
def save_posted_links (store : Store) : Store :=
  if store.length > 2000 then (sortByTsDesc store).take 2000 else store

/-- mark_as_posted (lines 91-101): insert the record for the link with the
current timestamp and the content hash of title+summary, then save. The
Python function reloads the store from the file; in the single-run model
that is the store argument. -/
def mark_as_posted (store : Store) (link title summary nowIso : String) : Store :=
  save_posted_links (dictInsert store link
    ⟨nowIso, some (generate_content_hash title summary)⟩)

/-! ### Feed entry, publish date, freshness (lines 103-149) -/

/-- One feed entry as the filter sees it. The summary field is the text
that extract_rich_summary returned for the entry (the enriched summary,
possibly still shorter than MIN_CONTENT_LENGTH). Each date field holds
the parse result of the corresponding feedparser attribute, with none for
an absent, falsy, or unparseable value: get_article_publish_date wraps
each access in try/except and continues on failure, so only the
first-success-wins order over the six fields is observable. Times are
Int seconds. -/
structure Entry where
  title : String
  link : String
  summary : String
  published_parsed : Option Int
  updated_parsed : Option Int
  created_parsed : Option Int
  published : Option Int
  updated : Option Int
  created : Option Int
deriving Repr

/-- get_article_publish_date (lines 103-130): first parseable value among
published_parsed, updated_parsed, created_parsed, then the string fields
published, updated, created; none when every field fails. -/
def get_article_publish_date (e : Entry) : Option Int :=
  e.published_parsed <|> e.updated_parsed <|> e.created_parsed <|>
    e.published <|> e.updated <|> e.created

/-- is_article_fresh (lines 132-149): with no parseable date the article
counts as fresh; otherwise it is fresh unless its age exceeds max_hours.
The code compares age.total_seconds() / 3600 > max_hours; in exact
arithmetic that is now - d > maxHours * 3600. -/
def is_article_fresh (e : Entry) (now maxHours : Int) : Bool :=
  match get_article_publish_date e with
  | none => true
  | some d => if now - d > maxHours * 3600 then false else true

/-! ### The per-candidate decision and the driver step -/

/-- Outcome of the filter for one candidate. -/
inductive Decision where
  | post
  | skipOld
  | skipDuplicateUrl
  | skipDuplicateContent
deriving DecidableEq, Repr

/-- The decision procedure the run makes for one entry, in source order:
the main loop checks `link in posted_links` first (lines 738-746) and only
then calls post_to_telegram, which checks is_article_fresh (line 585) and
then is_duplicate_content on the enriched summary (lines 590-596). -/
def shouldPost (e : Entry) (store : Store) (now maxHours : Int) : Decision :=
  if containsUrl store e.link then Decision.skipDuplicateUrl
  else if is_article_fresh e now maxHours = false then Decision.skipOld
  else if is_duplicate_content e.title e.summary store then Decision.skipDuplicateContent
  else Decision.post

/-- The persisted store after the run processes one entry with the given
delivery outcome: mark_as_posted runs exactly when the entry survives all
three checks and send_telegram_message succeeded (lines 666-684); every
skip and every delivery failure leaves the store untouched. -/
def run_entry (store : Store) (e : Entry) (now maxHours : Int)
    (deliveryOk : Bool) (nowIso : String) : Store :=
  match shouldPost e store now maxHours with
  | Decision.post =>
    if deliveryOk then mark_as_posted store e.link e.title e.summary nowIso
    else store
  | _ => store

/-! ### Persistence: the JSON state file (lines 39-71) -/

/-- JSON documents, enough for posted_links.json. -/
inductive Json where
  | null
  | bool (b : Bool)
  | num (n : Int)
  | str (s : String)
  | arr (xs : List Json)
  | obj (kvs : List (String × Json))

/-- Outcome of opening and json.load-ing the state file, as seen by
load_posted_links: the file may be missing, reading may raise IOError,
parsing may raise json.JSONDecodeError, or a document is produced. -/
inductive FileState where
  | missing
  | ioError
  | badJson
  | json (j : Json)

/-- The only uncaught exception load_posted_links can raise: the except
clause (line 53) catches json.JSONDecodeError and IOError, so calling
.items() on a non-dict document propagates AttributeError. -/
inductive LoadErr where
  | attributeError
deriving DecidableEq

/-- The loop body of lines 49-51: a record that is a bare string (legacy:
just a timestamp) becomes {"timestamp": s, "hash": null}; anything else is
left untouched. -/
def upgradeRecord (v : Json) : Json :=
  match v with
  | Json.str s => Json.obj [("timestamp", Json.str s), ("hash", Json.null)]
  | other => other

/-- load_posted_links (lines 39-55). A missing file returns {}; IOError
and JSONDecodeError are caught and return {}; a whole-file string (oldest
format: a single link) becomes one record stamped with the current time;
a dict has its string-valued records upgraded; any other document type
reaches data.items() and raises AttributeError. -/
def load_posted_links (fs : FileState) (nowIso : String) :
    Except LoadErr (List (String × Json)) :=
  match fs with
  | FileState.missing => Except.ok []
  | FileState.ioError => Except.ok []
  | FileState.badJson => Except.ok []
  | FileState.json (Json.str s) =>
    Except.ok [(s, Json.obj [("timestamp", Json.str nowIso), ("hash", Json.null)])]
  | FileState.json (Json.obj kvs) =>
    Except.ok (kvs.map (fun p => (p.1, upgradeRecord p.2)))
  | FileState.json _ => Except.error LoadErr.attributeError

/-- Lookup of a key in a JSON object, as dict access. -/
def jlookup (kvs : List (String × Json)) (k : String) : Option Json :=
  (kvs.find? (fun p => p.1 == k)).map Prod.snd

/-- The timestamp a loaded record value denotes downstream:
info.get('timestamp', '') with a string value, else the default. -/
def recTimestamp (j : Json) : String :=
  match j with
  | Json.obj kvs =>
    match jlookup kvs "timestamp" with
    | some (Json.str t) => t
    | _ => ""
  | _ => ""

/-- The fingerprint a loaded record value denotes downstream:
info.get('hash') when it is a string, none for null, a missing key, or a
non-object record. -/
def recHash (j : Json) : Option String :=
  match j with
  | Json.obj kvs =>
    match jlookup kvs "hash" with
    | some (Json.str h) => some h
    | _ => none
  | _ => none

/-- The JSON value json.dump writes for one current-shape record. -/
def recordToJson (r : PostedRecord) : Json :=
  Json.obj [("timestamp", Json.str r.timestamp),
            ("hash", match r.hash with
                     | some h => Json.str h
                     | none => Json.null)]

/-- The JSON document json.dump writes for a store. -/
def storeToJson (store : Store) : Json :=
  Json.obj (store.map (fun p => (p.1, recordToJson p.2)))

/-- The full file contents after save_posted_links: prune, then dump. -/
def save_file (store : Store) : Json :=
  storeToJson (save_posted_links store)

/-- Read a loaded item list back as a typed store through the accessor
semantics the rest of the program applies to record values. -/
def storeOfItems (items : List (String × Json)) : Store :=
  items.map (fun p => (p.1, ⟨recTimestamp p.2, recHash p.2⟩))

/-! ### Concrete data for witnesses -/

/-- Entry with no date field parseable anywhere. -/
def entryNoDate : Entry :=
  ⟨"Windhoek update", "http://example.na/a", "Some summary text",
    none, none, none, none, none, none⟩

/-- Entry published at time 0 (old relative to now = 1000000). -/
def entryOld : Entry :=
  ⟨"Old story", "http://example.na/old", "S",
    some 0, none, none, none, none, none⟩

/-- Entry whose content matches storeWithHash below under a different URL. -/
def entryDupContent : Entry :=
  ⟨"Same story", "http://example.na/new-url", "Identical body",
    none, none, none, none, none, none⟩

/-- Store holding one record whose fingerprint is that of
entryDupContent. -/
def storeWithHash : Store :=
  [("http://example.na/original",
    ⟨"2025-01-01T00:00:00", some (generate_content_hash "Same story" "Identical body")⟩)]

/-- Store holding only records with a null fingerprint. -/
def storeNullHashes : Store :=
  [("http://example.na/a", ⟨"2025-01-01T00:00:00", none⟩),
   ("http://example.na/b", ⟨"2025-01-02T00:00:00", none⟩)]

/-- One-record store for round-trip and capacity witnesses. -/
def demoStore : Store :=
  [("http://example.na/a", ⟨"2025-01-01T00:00:00", some "abc123"⟩)]

/-! ### Helper lemmas -/

/-- The hex digest always starts with a digit, hence is never the empty
string; the truthiness test on stored_hash therefore never rejects a
digest produced by generate_content_hash. -/
theorem md5Hex_ne_empty (s : String) : md5Hex s ≠ "" := by
  unfold md5Hex
  match md5Digest (utf8Bytes s) with
  | (a, b, c, d) =>
    intro h
    have h2 := congrArg String.data h
    simp [wordLEHex, byteHex] at h2

theorem generate_content_hash_ne_empty (t s : String) :
    generate_content_hash t s ≠ "" :=
  md5Hex_ne_empty (normalizeContent t s)

/-- A store at or under the 2000-record bound is saved unchanged. -/
theorem save_id_of_le (store : Store) (h : store.length ≤ 2000) :
    save_posted_links store = store := by
  unfold save_posted_links
  rw [if_neg]
  omega

/-- A record whose stored hash equals the fingerprint of (t, s) makes
is_duplicate_content answer true. -/
theorem is_duplicate_content_of_mem {store : Store} {t s : String}
    (h : ∃ p ∈ store, p.2.hash = some (generate_content_hash t s)) :
    is_duplicate_content t s store = true := by
  obtain ⟨p, hp, hh⟩ := h
  unfold is_duplicate_content
  rw [List.any_eq_true]
  refine ⟨p, hp, ?_⟩
  rw [hh]
  simp [bne_iff_ne, generate_content_hash_ne_empty]

/-- A store in which every hash is none makes is_duplicate_content answer
false. -/
theorem is_duplicate_content_of_null {store : Store}
    (h : ∀ p ∈ store, p.2.hash = none) (t s : String) :
    is_duplicate_content t s store = false := by
  unfold is_duplicate_content
  rw [List.any_eq_false]
  intro p hp
  simp [h p hp]

/-- Loading a JSON object document yields the upgraded items. -/
theorem load_obj (kvs : List (String × Json)) (nowIso : String) :
    load_posted_links (FileState.json (Json.obj kvs)) nowIso =
      Except.ok (kvs.map (fun p => (p.1, upgradeRecord p.2))) := rfl

/-- Reading back what recordToJson wrote recovers the record. -/
theorem storeOfItems_upgrade_toJson (store : Store) :
    storeOfItems ((store.map (fun p => (p.1, recordToJson p.2))).map
      (fun p => (p.1, upgradeRecord p.2))) = store := by
  induction store with
  | nil => rfl
  | cons hd tl ih =>
    obtain ⟨u, t, hsh⟩ := hd
    cases hsh <;>
      simpa [storeOfItems, recordToJson, upgradeRecord, recTimestamp, recHash,
        jlookup] using ih

/-- Reading back a document of bare-string legacy records yields the
upgraded typed store. -/
theorem storeOfItems_upgrade_legacy (kvs : List (String × String)) :
    storeOfItems ((kvs.map (fun p => (p.1, Json.str p.2))).map
      (fun p => (p.1, upgradeRecord p.2))) =
      kvs.map (fun p => (p.1, ⟨p.2, none⟩)) := by
  induction kvs with
  | nil => rfl
  | cons hd tl ih =>
    simp [storeOfItems, upgradeRecord, recTimestamp, recHash, jlookup]

/-! ### Claim theorems -/

/-- Claim C1: a candidate whose URL already has an exact-match record in
the store is decided SkipDuplicateUrl, whatever its dates and content:
the URL check comes first, so freshness and the content fingerprint never
influence the outcome. -/
theorem shouldPost_url_duplicate_first (e : Entry) (store : Store)
    (now maxHours : Int) (h : containsUrl store e.link = true) :
    shouldPost e store now maxHours = Decision.skipDuplicateUrl := by
  simp [shouldPost, h]

/-- Witness for C1: an already-posted URL is skipped even though the
entry is stale and its content matches a stored fingerprint. -/
theorem shouldPost_url_duplicate_first_witness :
    shouldPost ⟨"Same story", "http://example.na/original", "Identical body",
        some 0, none, none, none, none, none⟩
      storeWithHash 1000000 48 = Decision.skipDuplicateUrl :=
  shouldPost_url_duplicate_first _ storeWithHash 1000000 48 (by decide)

/-- Claim C2: for a candidate not already in the store by URL, a
parseable publish date older than maxAgeHours gives SkipOld, and a
candidate with no parseable date in any field is never decided SkipOld. -/
theorem shouldPost_freshness (e : Entry) (store : Store) (now maxHours : Int) :
    (containsUrl store e.link = false →
      ∀ d : Int, get_article_publish_date e = some d →
        now - d > maxHours * 3600 →
          shouldPost e store now maxHours = Decision.skipOld) ∧
    (get_article_publish_date e = none →
      shouldPost e store now maxHours ≠ Decision.skipOld) := by
  constructor
  · intro hurl d hd hold
    have hfresh : is_article_fresh e now maxHours = false := by
      simp [is_article_fresh, hd, hold]
    simp [shouldPost, hurl, hfresh]
  · intro hnone
    have hfresh : is_article_fresh e now maxHours = true := by
      simp [is_article_fresh, hnone]
    by_cases hc : containsUrl store e.link
    · simp [shouldPost, hc]
    · by_cases hdup : is_duplicate_content e.title e.summary store <;>
        simp [shouldPost, hc, hfresh, hdup]

/-- Witness for C2: a 1000000-second-old article is SkipOld at
maxAgeHours = 48 while a dateless one is not SkipOld. -/
theorem shouldPost_freshness_witness :
    shouldPost entryOld [] 1000000 48 = Decision.skipOld ∧
    shouldPost entryNoDate [] 1000000 48 ≠ Decision.skipOld :=
  ⟨(shouldPost_freshness entryOld [] 1000000 48).1 rfl 0 rfl (by decide),
   (shouldPost_freshness entryNoDate [] 1000000 48).2 rfl⟩

/-- Counterexample for C3: the code strips with the regex class \w, which
retains the underscore, while the claim strips every character that is
not alphanumeric or whitespace. The pairs ("a_b", "x") and ("ab", "x")
have identical normalized text under the wording of the claim, yet their
fingerprints differ, so the claimed pipeline and iff fail. -/
theorem fingerprint_underscore_counterexample :
    specNormalize "a_b" "x" = specNormalize "ab" "x" ∧
    generate_content_hash "a_b" "x" ≠ generate_content_hash "ab" "x" :=
  ⟨rfl, by decide⟩

/-- Claim C3 (amended): the fingerprint is the hash of the text obtained
by concatenating title and summary with one space, lowercasing, stripping
every character that is not a word character (alphanumeric or underscore)
or whitespace, collapsing whitespace runs, and trimming; pairs with equal
normalized text get equal fingerprints (the converse only up to hash
collisions), the claimed example holds, and the underscore is retained. -/
theorem generate_content_hash_normalization :
    (∀ t1 s1 t2 s2 : String, normalizeContent t1 s1 = normalizeContent t2 s2 →
      generate_content_hash t1 s1 = generate_content_hash t2 s2) ∧
    generate_content_hash "Hello, World!" "x" = generate_content_hash "hello world" "x" ∧
    normalizeContent "a_b" "x" = "a_b x" := by
  refine ⟨?_, ?_, rfl⟩
  · intro t1 s1 t2 s2 h
    unfold generate_content_hash
    rw [h]
  · unfold generate_content_hash
    rw [show normalizeContent "Hello, World!" "x" = normalizeContent "hello world" "x"
      from rfl]

/-- Witness for C3 (amended): case insensitivity at a concrete pair. -/
theorem generate_content_hash_normalization_witness :
    generate_content_hash "NAMIBIA Daily" "report" =
      generate_content_hash "namibia daily" "report" :=
  generate_content_hash_normalization.1 "NAMIBIA Daily" "report"
    "namibia daily" "report" rfl

/-- Claim C4: a fresh candidate with a new URL whose fingerprint equals a
stored record fingerprint (necessarily under a different URL) is decided
SkipDuplicateContent, and processing it leaves the persisted store
unchanged for every delivery outcome. -/
theorem shouldPost_content_duplicate (e : Entry) (store : Store)
    (now maxHours : Int)
    (hurl : containsUrl store e.link = false)
    (hfresh : is_article_fresh e now maxHours = true)
    (hmatch : ∃ p ∈ store, p.2.hash = some (generate_content_hash e.title e.summary)) :
    shouldPost e store now maxHours = Decision.skipDuplicateContent ∧
    ∀ (deliveryOk : Bool) (nowIso : String),
      run_entry store e now maxHours deliveryOk nowIso = store := by
  have hdup := is_duplicate_content_of_mem hmatch
  refine ⟨by simp [shouldPost, hurl, hfresh, hdup], ?_⟩
  intro deliveryOk nowIso
  simp [run_entry, shouldPost, hurl, hfresh, hdup]

/-- Witness for C4: the same story under a new URL is skipped as
duplicate content and the store survives both delivery outcomes. -/
theorem shouldPost_content_duplicate_witness :
    shouldPost entryDupContent storeWithHash 0 48 = Decision.skipDuplicateContent ∧
    run_entry storeWithHash entryDupContent 0 48 true "2025-02-02T00:00:00" =
      storeWithHash :=
  ⟨(shouldPost_content_duplicate entryDupContent storeWithHash 0 48
      (by decide) rfl
      ⟨("http://example.na/original",
        ⟨"2025-01-01T00:00:00",
          some (generate_content_hash "Same story" "Identical body")⟩),
        List.mem_singleton.mpr rfl, rfl⟩).1,
   (shouldPost_content_duplicate entryDupContent storeWithHash 0 48
      (by decide) rfl
      ⟨("http://example.na/original",
        ⟨"2025-01-01T00:00:00",
          some (generate_content_hash "Same story" "Identical body")⟩),
        List.mem_singleton.mpr rfl, rfl⟩).2 true "2025-02-02T00:00:00"⟩

/-- Claim C5: save enforces the capacity bound. A store over 2000 records
is saved with exactly 2000 records, a splitting of the timestamp-sorted
store into the saved part and an evicted part that together permute the
original, where every evicted record has a timestamp at most that of
every saved record; a store at or under the bound is saved whole. -/
theorem save_posted_links_capacity (store : Store) :
    (store.length ≤ 2000 → save_posted_links store = store) ∧
    (2000 < store.length →
      (save_posted_links store).length = 2000 ∧
      (save_posted_links store ++ (sortByTsDesc store).drop 2000).Perm store ∧
      ∀ p ∈ save_posted_links store, ∀ q ∈ (sortByTsDesc store).drop 2000,
        q.2.timestamp ≤ p.2.timestamp) := by
  refine ⟨save_id_of_le store, fun h => ?_⟩
  have hsave : save_posted_links store = (sortByTsDesc store).take 2000 := by
    unfold save_posted_links
    rw [if_pos h]
  have hperm : (sortByTsDesc store).Perm store := List.perm_insertionSort tsGe store
  have hlen : (sortByTsDesc store).length = store.length := hperm.length_eq
  refine ⟨?_, ?_, ?_⟩
  · rw [hsave, List.length_take, hlen]
    omega
  · rw [hsave, List.take_append_drop]
    exact hperm
  · intro p hp q hq
    have hsorted : List.Sorted tsGe (sortByTsDesc store) :=
      List.sorted_insertionSort tsGe store
    have hpw : List.Pairwise tsGe
        ((sortByTsDesc store).take 2000 ++ (sortByTsDesc store).drop 2000) := by
      rw [List.take_append_drop]
      exact hsorted
    exact (List.pairwise_append.1 hpw).2.2 p (by rwa [hsave] at hp) q hq

/-- Witness for C5: a store under the bound is saved unchanged. -/
theorem save_posted_links_capacity_witness :
    save_posted_links demoStore = demoStore :=
  (save_posted_links_capacity demoStore).1 (by decide)

/-- Counterexample for C6: load does not always avoid raising. On a
well-formed JSON document that is neither an object nor a string, such as
an array, the except clause does not apply and data.items() raises
AttributeError to the caller instead of yielding an empty store. -/
theorem load_posted_links_array_raises :
    load_posted_links (FileState.json (Json.arr [])) "2025-01-01T00:00:00" =
      Except.error LoadErr.attributeError := rfl

/-- Claim C6 (amended): load returns an empty store on a missing state
file, on an unreadable file (IOError), and on malformed JSON
(JSONDecodeError); a whole-file legacy string becomes one current-shape
record stamped with the current time; in a dict document every bare
timestamp string is upgraded to the current shape with a null
fingerprint, and a record without a hash field reads as a null
fingerprint. Only a well-formed JSON document of any other type makes
load raise. -/
theorem load_posted_links_behavior (nowIso : String) :
    load_posted_links FileState.missing nowIso = Except.ok [] ∧
    load_posted_links FileState.ioError nowIso = Except.ok [] ∧
    load_posted_links FileState.badJson nowIso = Except.ok [] ∧
    (∀ s : String, load_posted_links (FileState.json (Json.str s)) nowIso =
      Except.ok [(s, Json.obj [("timestamp", Json.str nowIso), ("hash", Json.null)])]) ∧
    (∀ kvs : List (String × Json),
      load_posted_links (FileState.json (Json.obj kvs)) nowIso =
        Except.ok (kvs.map (fun p => (p.1, upgradeRecord p.2)))) ∧
    (∀ t : String, recTimestamp (upgradeRecord (Json.str t)) = t ∧
      recHash (upgradeRecord (Json.str t)) = none) ∧
    (∀ t : String, recHash (Json.obj [("timestamp", Json.str t)]) = none) :=
  ⟨rfl, rfl, rfl, fun _ => rfl, fun _ => rfl, fun _ => ⟨rfl, rfl⟩, fun _ => rfl⟩

/-- Claim C7: an entry that passed every check is marked in the store
with the current timestamp and the fingerprint of its title+summary and
the store is persisted exactly when delivery succeeded; a delivery
failure leaves the persisted store untouched. Stated for a store with
room under the capacity bound so that the freshly inserted record is not
itself pruned. -/
theorem delivery_success_updates_store (store : Store) (e : Entry)
    (now maxHours : Int) (nowIso : String)
    (hpost : shouldPost e store now maxHours = Decision.post)
    (hlen : store.length < 2000) :
    run_entry store e now maxHours true nowIso =
      store ++ [(e.link, ⟨nowIso, some (generate_content_hash e.title e.summary)⟩)] ∧
    run_entry store e now maxHours false nowIso = store := by
  have hurl : containsUrl store e.link = false := by
    by_contra hc
    rw [Bool.not_eq_false] at hc
    simp [shouldPost, hc] at hpost
  constructor
  · simp only [run_entry, hpost, if_pos]
    unfold mark_as_posted
    simp only [dictInsert, hurl, Bool.false_eq_true, if_false]
    apply save_id_of_le
    rw [List.length_append]
    simp
    omega
  · simp [run_entry, hpost]

/-- Witness for C7: posting into an empty store appends exactly the new
record on success and changes nothing on failure. -/
theorem delivery_success_updates_store_witness :
    run_entry [] entryNoDate 0 48 true "2025-03-03T00:00:00" =
      [("http://example.na/a",
        ⟨"2025-03-03T00:00:00",
          some (generate_content_hash "Windhoek update" "Some summary text")⟩)] ∧
    run_entry [] entryNoDate 0 48 false "2025-03-03T00:00:00" = [] :=
  delivery_success_updates_store [] entryNoDate 0 48 "2025-03-03T00:00:00" rfl
    (by decide)

/-- Claim C8: save followed by load round-trips every store within the
capacity bound, reading each loaded record through the accessor semantics
the program applies to it: same URL keys in order, same timestamps, same
possibly-null fingerprints. The second conjunct covers a store document
built purely from bare-string legacy records, which loads as the upgraded
typed store to which the first conjunct applies. -/
theorem save_load_round_trip (store : Store) (nowIso : String)
    (h : store.length ≤ 2000) :
    (load_posted_links (FileState.json (save_file store)) nowIso).map storeOfItems =
      Except.ok store ∧
    ∀ kvs : List (String × String),
      (load_posted_links (FileState.json (Json.obj
          (kvs.map (fun p => (p.1, Json.str p.2))))) nowIso).map storeOfItems =
        Except.ok (kvs.map (fun p => (p.1, (⟨p.2, none⟩ : PostedRecord)))) := by
  constructor
  · unfold save_file
    rw [save_id_of_le store h]
    unfold storeToJson
    rw [load_obj]
    simp only [Except.map]
    rw [storeOfItems_upgrade_toJson]
  · intro kvs
    rw [load_obj]
    simp only [Except.map]
    rw [storeOfItems_upgrade_legacy]

/-- Witness for C8: a one-record store round-trips. -/
theorem save_load_round_trip_witness :
    (load_posted_links (FileState.json (save_file demoStore))
        "2025-04-04T00:00:00").map storeOfItems = Except.ok demoStore :=
  (save_load_round_trip demoStore "2025-04-04T00:00:00" (by decide)).1

/-- Counterexample for C9: the content-fingerprint duplicate check is
applied even to a candidate whose summary is far below
MIN_CONTENT_LENGTH; such a candidate is decided SkipDuplicateContent when
its fingerprint matches a stored record. -/
theorem short_summary_content_check_counterexample :
    "x".length < MIN_CONTENT_LENGTH ∧
    shouldPost ⟨"Short title", "http://example.na/short-new", "x",
        none, none, none, none, none, none⟩
      [("http://example.na/short-old",
        ⟨"2025-01-01T00:00:00", some (generate_content_hash "Short title" "x")⟩)]
      0 48 = Decision.skipDuplicateContent :=
  ⟨by decide, by decide⟩

/-- Claim C9 (amended): is_duplicate_content consults no minimum length;
the content-duplicate decision applies to every fresh, new-URL candidate
with a matching stored fingerprint regardless of how short its summary
is. -/
theorem content_check_ignores_summary_length (e : Entry) (store : Store)
    (now maxHours : Int)
    (hurl : containsUrl store e.link = false)
    (hfresh : is_article_fresh e now maxHours = true)
    (_hshort : e.summary.length < MIN_CONTENT_LENGTH)
    (hmatch : ∃ p ∈ store, p.2.hash = some (generate_content_hash e.title e.summary)) :
    shouldPost e store now maxHours = Decision.skipDuplicateContent := by
  have hdup := is_duplicate_content_of_mem hmatch
  simp [shouldPost, hurl, hfresh, hdup]

/-- Witness for C9 (amended) at a one-character summary. -/
theorem content_check_ignores_summary_length_witness :
    shouldPost ⟨"Tiny", "http://example.na/t2", "y",
        none, none, none, none, none, none⟩
      [("http://example.na/t1",
        ⟨"2025-01-01T00:00:00", some (generate_content_hash "Tiny" "y")⟩)] 5 48 =
      Decision.skipDuplicateContent :=
  content_check_ignores_summary_length _ _ 5 48 (by decide) rfl (by decide)
    ⟨("http://example.na/t1",
      ⟨"2025-01-01T00:00:00", some (generate_content_hash "Tiny" "y")⟩),
      List.mem_singleton.mpr rfl, rfl⟩

/-- Claim C10: a stored record with a null fingerprint never matches in
content-duplicate detection; over a store of only null-fingerprint
records the check is false for every candidate and no candidate is ever
decided SkipDuplicateContent, so such records can only cause URL skips. -/
theorem null_hash_never_matches (store : Store)
    (h : ∀ p ∈ store, p.2.hash = none) :
    (∀ title summary : String, is_duplicate_content title summary store = false) ∧
    (∀ (e : Entry) (now maxHours : Int),
      shouldPost e store now maxHours ≠ Decision.skipDuplicateContent) := by
  refine ⟨fun t s => is_duplicate_content_of_null h t s, ?_⟩
  intro e now maxHours
  by_cases hc : containsUrl store e.link
  · simp [shouldPost, hc]
  · cases hf : is_article_fresh e now maxHours with
    | false => simp [shouldPost, hc, hf]
    | true => simp [shouldPost, hc, hf, is_duplicate_content_of_null h]

/-- Witness for C10 over a store of upgraded legacy records. -/
theorem null_hash_never_matches_witness :
    is_duplicate_content "Any title" "any summary" storeNullHashes = false ∧
    shouldPost entryNoDate storeNullHashes 0 48 ≠ Decision.skipDuplicateContent :=
  ⟨(null_hash_never_matches storeNullHashes (by decide)).1 "Any title" "any summary",
   (null_hash_never_matches storeNullHashes (by decide)).2 entryNoDate 0 48⟩
